import Mathlib

/-!
Shallow embedding of the JIT compilation engine
(src/core-projects/jit-compiler/src/jit_engine.c), the subsystem specified
in spec.md: IR values, instructions, basic blocks, functions, the two
optimization passes (dead-code elimination and constant folding), the
x86_64 and ARM64 code generators, the compile entry point, and the
code-cache cursor bookkeeping of the JIT context.

Modelling conventions:
- linked lists (instruction and block chains via raw next pointers) become
  Lean lists, in the same order;
- the C type int64_t is modelled as Int normalized into the two's-complement
  range by toInt64 below; int64_t arithmetic wraps accordingly;
- the C type uint32_t (SSA-id, block-id and instruction counters) is
  modelled as Nat reduced mod 2^32 at each increment;
- block pointers stored in instructions (target_block, else_block) are
  modelled as optional block ids;
- the global g_jit_context becomes an explicit JitContext value, and the
  code_ptr cursor becomes a byte offset code_off from the cache base;
- the static block_id_counter of jit_block_create becomes explicitly
  threaded counter state.
-/

namespace JitEngine

/-- Two's-complement interpretation of an integer as a 64-bit value:
reduce mod 2^64 into the interval from -2^63 to 2^63 - 1.  This is the
wraparound semantics of the C type int64_t. -/
def toInt64 (n : Int) : Int := (n + 2 ^ 63) % 2 ^ 64 - 2 ^ 63

/-- Modulus of the C type uint32_t. -/
def U32 : Nat := 2 ^ 32

/-- Target architectures (enum jit_arch_t). -/
inductive JitArch
  | x86_64
  | arm64
  | riscv64
deriving DecidableEq, Repr

/-- IR value types (enum jit_type_t). -/
inductive JitType
  | int32
  | int64
  | float32
  | float64
  | ptr
deriving DecidableEq, Repr

/-- IR opcodes (enum jit_opcode_t). -/
inductive JitOpcode
  | add
  | sub
  | mul
  | div
  | mov
  | load
  | store
  | branch
  | branchIf
  | call
  | ret
deriving DecidableEq, Repr

/-- SSA value (struct jit_value).  In C a value produced by
jit_value_create leaves constant_value uninitialized; it is never read
while is_constant is false, and the embedding fixes it to 0 there. -/
structure JitValue where
  id : Nat
  type : JitType
  is_constant : Bool
  constant_value : Int
deriving DecidableEq, Repr

/-- The all-zero jit_value_t produced by calloc for fields the builder
does not set (enum 0 is JIT_TYPE_INT32). -/
def zeroValue : JitValue :=
  { id := 0, type := JitType.int32, is_constant := false, constant_value := 0 }

/-- IR instruction (struct jit_instruction); the next pointer is replaced
by list order, and the two block pointers by optional block ids. -/
structure JitInstruction where
  opcode : JitOpcode
  dest : JitValue
  src1 : JitValue
  src2 : JitValue
  target_block : Option Nat
  else_block : Option Nat
  is_live : Bool
deriving DecidableEq, Repr

/-- Basic block (struct jit_block); the instruction chain becomes a list
and num_instructions is kept as the separately maintained counter. -/
structure JitBlock where
  id : Nat
  insts : List JitInstruction
  num_instructions : Nat
deriving DecidableEq, Repr

/-- One entry of the virtual-register table (struct virtual_reg_t). -/
structure VirtualReg where
  physical_reg : Int
  spilled : Int
  start_pos : Int
  end_pos : Int
deriving DecidableEq, Repr

/-- Register-allocator state carried by a function (struct reg_allocator_t).
In jit_engine.c this state is initialized by jit_function_create and never
written again. -/
structure RegAllocator where
  virtual_regs : List VirtualReg
  num_virtual_regs : Nat
  num_physical_regs : Nat
deriving DecidableEq, Repr

/-- JIT function (struct jit_function): the block chain becomes a list
whose head is the entry block, and the current_block pointer becomes an
index into that list. -/
structure JitFunction where
  blocks : List JitBlock
  current_block : Nat
  num_blocks : Nat
  next_ssa_id : Nat
  reg_allocator : RegAllocator
deriving DecidableEq, Repr

/-- JIT context (struct jit_context_t / the global g_jit_context): the
code_ptr cursor is the byte offset code_off from the start of the mmap
region of size code_cache_size. -/
structure JitContext where
  target_arch : JitArch
  code_off : Nat
  code_cache_size : Nat
  initialized : Bool
deriving DecidableEq, Repr

/-- Number of general-purpose registers in the arch_info table
(supported_archs in jit_engine.c). -/
def numRegisters : JitArch → Nat
  | JitArch.x86_64 => 16
  | JitArch.arm64 => 32
  | JitArch.riscv64 => 32

/-- jit_init: record the target architecture, a fresh 1 MiB code cache
with the cursor at its start, and mark the context initialized.  (The
mmap-failure path returns JIT_ERROR_MEMORY and leaves no usable context;
it is outside the claims considered here.) -/
def jit_init (target_arch : JitArch) : JitContext :=
  { target_arch := target_arch
    code_off := 0
    code_cache_size := 1024 * 1024
    initialized := true }

/-- jit_block_create: return a fresh block carrying the current value of
the static uint32_t block_id_counter, and the post-increment counter. -/
def jit_block_create (counter : Nat) : JitBlock × Nat :=
  ({ id := counter, insts := [], num_instructions := 0 }, (counter + 1) % U32)

/-- jit_function_create: requires an initialized context; allocates the
entry block from the global block counter and initializes the
register-allocator state (the C code sets only num_virtual_regs and
num_physical_regs; the calloc leaves virtual_regs null/empty). -/
def jit_function_create (ctx : JitContext) (counter : Nat) :
    Option JitFunction × Nat :=
  if ctx.initialized then
    let p := jit_block_create counter
    (some { blocks := [p.1]
            current_block := 0
            num_blocks := 1
            next_ssa_id := 1
            reg_allocator :=
              { virtual_regs := []
                num_virtual_regs := 0
                num_physical_regs := numRegisters ctx.target_arch } }, p.2)
  else (none, counter)

/-- Core of jit_value_create, parameterized by the uint32_t SSA counter:
fresh id, requested type, non-constant. -/
def value_create_raw (ssa : Nat) (t : JitType) : JitValue × Nat :=
  ({ id := ssa, type := t, is_constant := false, constant_value := 0 },
   (ssa + 1) % U32)

/-- Core of jit_value_create_constant: a fresh value with is_constant set
and the given int64_t payload. -/
def value_create_constant_raw (ssa : Nat) (t : JitType) (c : Int) :
    JitValue × Nat :=
  let p := value_create_raw ssa t
  ({ p.1 with is_constant := true, constant_value := toInt64 c }, p.2)

/-- jit_value_create on a function: draws from next_ssa_id. -/
def jit_value_create (f : JitFunction) (t : JitType) :
    JitValue × JitFunction :=
  let p := value_create_raw f.next_ssa_id t
  (p.1, { f with next_ssa_id := p.2 })

/-- jit_value_create_constant on a function. -/
def jit_value_create_constant (f : JitFunction) (t : JitType) (c : Int) :
    JitValue × JitFunction :=
  let p := value_create_constant_raw f.next_ssa_id t c
  (p.1, { f with next_ssa_id := p.2 })

/-- Replace the block at a given index of the block list. -/
def modifyBlockAt (n : Nat) (g : JitBlock → JitBlock) :
    List JitBlock → List JitBlock
  | [] => []
  | b :: bs =>
    match n with
    | 0 => g b :: bs
    | Nat.succ m => b :: modifyBlockAt m g bs

/-- add_instruction: tail-append the instruction to the current block and
bump its uint32_t instruction counter. -/
def add_instruction (f : JitFunction) (inst : JitInstruction) : JitFunction :=
  { f with
      blocks := modifyBlockAt f.current_block
        (fun b => { b with
                      insts := b.insts ++ [inst]
                      num_instructions := (b.num_instructions + 1) % U32 })
        f.blocks }

/-- jit_insn_add: fresh destination of the left operand type, an ADD
instruction appended to the current block. -/
def jit_insn_add (f : JitFunction) (left right : JitValue) :
    JitValue × JitFunction :=
  let p := jit_value_create f left.type
  let inst : JitInstruction :=
    { opcode := JitOpcode.add, dest := p.1, src1 := left, src2 := right
      target_block := none, else_block := none, is_live := false }
  (p.1, add_instruction p.2 inst)

/-- jit_insn_sub. -/
def jit_insn_sub (f : JitFunction) (left right : JitValue) :
    JitValue × JitFunction :=
  let p := jit_value_create f left.type
  let inst : JitInstruction :=
    { opcode := JitOpcode.sub, dest := p.1, src1 := left, src2 := right
      target_block := none, else_block := none, is_live := false }
  (p.1, add_instruction p.2 inst)

/-- jit_insn_mul. -/
def jit_insn_mul (f : JitFunction) (left right : JitValue) :
    JitValue × JitFunction :=
  let p := jit_value_create f left.type
  let inst : JitInstruction :=
    { opcode := JitOpcode.mul, dest := p.1, src1 := left, src2 := right
      target_block := none, else_block := none, is_live := false }
  (p.1, add_instruction p.2 inst)

/-- jit_insn_load: the destination is always created with JIT_TYPE_PTR,
whatever the type of the address operand. -/
def jit_insn_load (f : JitFunction) (address : JitValue) :
    JitValue × JitFunction :=
  let p := jit_value_create f JitType.ptr
  let inst : JitInstruction :=
    { opcode := JitOpcode.load, dest := p.1, src1 := address, src2 := zeroValue
      target_block := none, else_block := none, is_live := false }
  (p.1, add_instruction p.2 inst)

/-- jit_insn_store: no destination (calloc zero), src1 is the address and
src2 the stored value. -/
def jit_insn_store (f : JitFunction) (address value : JitValue) :
    JitFunction :=
  add_instruction f
    { opcode := JitOpcode.store, dest := zeroValue, src1 := address
      src2 := value, target_block := none, else_block := none
      is_live := false }

/-- jit_insn_branch: records the target block id. -/
def jit_insn_branch (f : JitFunction) (target : Nat) : JitFunction :=
  add_instruction f
    { opcode := JitOpcode.branch, dest := zeroValue, src1 := zeroValue
      src2 := zeroValue, target_block := some target, else_block := none
      is_live := false }

/-- jit_insn_branch_if. -/
def jit_insn_branch_if (f : JitFunction) (condition : JitValue)
    (true_block false_block : Nat) : JitFunction :=
  add_instruction f
    { opcode := JitOpcode.branchIf, dest := zeroValue, src1 := condition
      src2 := zeroValue, target_block := some true_block
      else_block := some false_block, is_live := false }

/-- jit_insn_return. -/
def jit_insn_return (f : JitFunction) (value : JitValue) : JitFunction :=
  add_instruction f
    { opcode := JitOpcode.ret, dest := zeroValue, src1 := value
      src2 := zeroValue, target_block := none, else_block := none
      is_live := false }

/-- The side-effect test of eliminate_dead_code: STORE, RETURN or CALL. -/
def sideEffect (op : JitOpcode) : Bool :=
  op == JitOpcode.store || op == JitOpcode.ret || op == JitOpcode.call

/-- Body of the dead-code-elimination sweep on one instruction: mark it
live (and report a change) exactly when it is not yet live and its opcode
has a side effect. -/
def dceMarkInst (i : JitInstruction) : JitInstruction × Bool :=
  if !i.is_live && sideEffect i.opcode then
    ({ i with is_live := true }, true)
  else (i, false)

/-- One sweep of the elimination loop over an instruction chain, returning
the updated chain and whether anything changed. -/
def dceSweepInsts : List JitInstruction → List JitInstruction × Bool
  | [] => ([], false)
  | i :: rest =>
    let p := dceMarkInst i
    let q := dceSweepInsts rest
    (p.1 :: q.1, p.2 || q.2)

/-- One sweep over the block chain. -/
def dceSweepBlocks : List JitBlock → List JitBlock × Bool
  | [] => ([], false)
  | b :: bs =>
    let p := dceSweepInsts b.insts
    let q := dceSweepBlocks bs
    ({ b with insts := p.1 } :: q.1, p.2 || q.2)

/-- One iteration of the while (changed) loop of eliminate_dead_code. -/
def dceSweep (f : JitFunction) : JitFunction × Bool :=
  let p := dceSweepBlocks f.blocks
  ({ f with blocks := p.1 }, p.2)

/-- eliminate_dead_code: the C code repeats dceSweep while it reports a
change.  A sweep can only turn not-yet-live side-effect instructions live,
so a second sweep never reports a change (lemma dceSweep_twice_no_change
below); hence the loop runs at most two sweeps and is embedded as such. -/
def eliminate_dead_code (f : JitFunction) : JitFunction :=
  let p := dceSweep f
  if p.2 then (dceSweep p.1).1 else p.1

/-- The pointwise effect of the elimination loop on one instruction: live
exactly when it was live before or its opcode has a side effect (proved
equal to eliminate_dead_code below). -/
def markLive (i : JitInstruction) : JitInstruction :=
  { i with is_live := i.is_live || sideEffect i.opcode }

/-- Apply a transformation to every instruction of every block, keeping
all other state of the function. -/
def mapInsts (g : JitInstruction → JitInstruction) (f : JitFunction) :
    JitFunction :=
  { f with blocks := f.blocks.map (fun b => { b with insts := b.insts.map g }) }

/-- The fold test of constant_folding on the opcode: ADD, SUB or MUL can
fold (the switch cases that do not set can_fold to 0). -/
def foldableOp (op : JitOpcode) : Bool :=
  op == JitOpcode.add || op == JitOpcode.sub || op == JitOpcode.mul

/-- The int64_t arithmetic of the fold switch: each case computes with
two's-complement wraparound. -/
def foldResult (op : JitOpcode) (a b : Int) : Int :=
  match op with
  | JitOpcode.add => toInt64 (a + b)
  | JitOpcode.sub => toInt64 (a - b)
  | JitOpcode.mul => toInt64 (a * b)
  | _ => 0

/-- Body of constant_folding on one instruction, threading the function's
SSA counter (jit_value_create_constant draws from it): when both operands
are constants and the opcode can fold, the instruction is rewritten in
place to MOV of a newly created constant and src2's id is zeroed. -/
def foldInst (ssa : Nat) (i : JitInstruction) : JitInstruction × Nat :=
  if i.src1.is_constant && i.src2.is_constant && foldableOp i.opcode then
    let p := value_create_constant_raw ssa i.dest.type
      (foldResult i.opcode i.src1.constant_value i.src2.constant_value)
    ({ i with
        opcode := JitOpcode.mov
        src1 := p.1
        src2 := { i.src2 with id := 0 } }, p.2)
  else (i, ssa)

/-- constant_folding over an instruction chain, threading the SSA counter. -/
def foldInsts : List JitInstruction → Nat → List JitInstruction × Nat
  | [], ssa => ([], ssa)
  | i :: rest, ssa =>
    let p := foldInst ssa i
    let q := foldInsts rest p.2
    (p.1 :: q.1, q.2)

/-- constant_folding over the block chain. -/
def foldBlocks : List JitBlock → Nat → List JitBlock × Nat
  | [], ssa => ([], ssa)
  | b :: bs, ssa =>
    let p := foldInsts b.insts ssa
    let q := foldBlocks bs p.2
    ({ b with insts := p.1 } :: q.1, q.2)

/-- constant_folding: single pass over all blocks in order; the function's
next_ssa_id advances by the constants the pass created. -/
def constant_folding (f : JitFunction) : JitFunction :=
  let p := foldBlocks f.blocks f.next_ssa_id
  { f with blocks := p.1, next_ssa_id := p.2 }

/-- All instructions of a function in program order across all blocks. -/
def allInsts (f : JitFunction) : List JitInstruction :=
  f.blocks.flatMap JitBlock.insts

/-- Little-endian byte list of the two's-complement representation of an
int64_t, as stored by the 8-byte immediate write of the MOV case. -/
def le64 (v : Int) : List Nat :=
  (List.range 8).map (fun k => (v % 2 ^ 64).toNat / 256 ^ k % 256)

/-- The x86_64 function prologue: push rbp; mov rbp, rsp. -/
def x86Prologue : List Nat := [0x55, 0x48, 0x89, 0xe5]

/-- The per-instruction switch of codegen_x86_64: a fixed byte template
per opcode (the source's simplified encodings name rax for every
register field); opcodes without a case emit nothing. -/
def codegenInstX86 (i : JitInstruction) : List Nat :=
  match i.opcode with
  | JitOpcode.add => [0x48, 0x01, 0xc0]
  | JitOpcode.sub => [0x48, 0x29, 0xc0]
  | JitOpcode.mul => [0x48, 0x0f, 0xaf, 0xc0]
  | JitOpcode.mov =>
    if i.src1.is_constant then [0x48, 0xb8] ++ le64 i.src1.constant_value
    else [0x48, 0x89, 0xc0]
  | JitOpcode.ret => [0x48, 0x89, 0xec, 0x5d, 0xc3]
  | _ => []

/-- codegen_x86_64: prologue, then every instruction of every block in
program order, regardless of liveness. -/
def codegen_x86_64 (f : JitFunction) : List Nat :=
  x86Prologue ++ f.blocks.flatMap (fun b => b.insts.flatMap codegenInstX86)

/-- The ARM64 function prologue as 32-bit instruction words. -/
def armPrologue : List Nat := [0xa9bf7bfd, 0x910003fd]

/-- The per-instruction switch of codegen_arm64: fixed 32-bit words. -/
def codegenInstArm (i : JitInstruction) : List Nat :=
  match i.opcode with
  | JitOpcode.add => [0x8b000000]
  | JitOpcode.sub => [0xcb000000]
  | JitOpcode.mul => [0x9b007c00]
  | JitOpcode.ret => [0xa8c17bfd, 0xd65f03c0]
  | _ => []

/-- codegen_arm64 as a list of 32-bit instruction words; the emitted byte
count is 4 times its length. -/
def codegen_arm64 (f : JitFunction) : List Nat :=
  armPrologue ++ f.blocks.flatMap (fun b => b.insts.flatMap codegenInstArm)

/-- jit_function_compile: null-function and uninitialized-context checks,
then the two optimization passes, then architecture dispatch.  The result
triple is (returned code pointer as an offset into the cache, or none on
failure; the context with its cursor advanced by the emitted byte count;
the function object the caller's pointer now refers to).  The RISC-V arm
is the switch default: it returns NULL, after the passes have already run
and before the cursor update. -/
def jit_function_compile (ctx : JitContext) (fo : Option JitFunction) :
    Option Nat × JitContext × Option JitFunction :=
  match fo with
  | none => (none, ctx, none)
  | some f =>
    if !ctx.initialized then (none, ctx, some f)
    else
      let g := constant_folding (eliminate_dead_code f)
      match ctx.target_arch with
      | JitArch.x86_64 =>
        let code := codegen_x86_64 g
        (some ctx.code_off,
         { ctx with code_off := ctx.code_off + code.length }, some g)
      | JitArch.arm64 =>
        let words := codegen_arm64 g
        (some ctx.code_off,
         { ctx with code_off := ctx.code_off + 4 * words.length }, some g)
      | JitArch.riscv64 => (none, ctx, some g)

/-! Concrete IR inputs used by the witness and counterexample theorems. -/

/-- An ADD of the constants 3 and 4 (dest id 3, operand ids 1 and 2), as
the builder calls jit_value_create_constant twice followed by
jit_insn_add produce. -/
def exFoldInst : JitInstruction :=
  { opcode := JitOpcode.add
    dest := { id := 3, type := JitType.int64, is_constant := false
              constant_value := 0 }
    src1 := { id := 1, type := JitType.int64, is_constant := true
              constant_value := 3 }
    src2 := { id := 2, type := JitType.int64, is_constant := true
              constant_value := 4 }
    target_block := none, else_block := none, is_live := false }

/-- A function holding the single constant ADD above, next SSA id 4. -/
def exFoldFunc : JitFunction :=
  { blocks :=
      [{ id := 0
         insts := [exFoldInst]
         num_instructions := 1 }]
    current_block := 0
    num_blocks := 1
    next_ssa_id := 4
    reg_allocator :=
      { virtual_regs := [], num_virtual_regs := 0, num_physical_regs := 16 } }

/-- A function computing a non-constant ADD (value id 3) that is consumed
by a RETURN: the shape build of f(a, b) = a + b. -/
def exAddRetFunc : JitFunction :=
  { blocks :=
      [{ id := 0
         insts :=
           [{ opcode := JitOpcode.add
              dest := { id := 3, type := JitType.int64, is_constant := false
                        constant_value := 0 }
              src1 := { id := 1, type := JitType.int64, is_constant := false
                        constant_value := 0 }
              src2 := { id := 2, type := JitType.int64, is_constant := false
                        constant_value := 0 }
              target_block := none, else_block := none, is_live := false },
            { opcode := JitOpcode.ret
              dest := zeroValue
              src1 := { id := 3, type := JitType.int64, is_constant := false
                        constant_value := 0 }
              src2 := zeroValue
              target_block := none, else_block := none, is_live := false }]
         num_instructions := 2 }]
    current_block := 0
    num_blocks := 1
    next_ssa_id := 4
    reg_allocator :=
      { virtual_regs := [], num_virtual_regs := 0, num_physical_regs := 16 } }

/-- A function holding a single RETURN instruction. -/
def exRetFunc : JitFunction :=
  { blocks :=
      [{ id := 0
         insts :=
           [{ opcode := JitOpcode.ret
              dest := zeroValue
              src1 := { id := 1, type := JitType.int64, is_constant := false
                        constant_value := 0 }
              src2 := zeroValue
              target_block := none, else_block := none, is_live := false }]
         num_instructions := 1 }]
    current_block := 0
    num_blocks := 1
    next_ssa_id := 2
    reg_allocator :=
      { virtual_regs := [], num_virtual_regs := 0, num_physical_regs := 16 } }

/-- A STORE instruction, not yet marked live. -/
def exStoreInst : JitInstruction :=
  { opcode := JitOpcode.store
    dest := zeroValue
    src1 := { id := 1, type := JitType.ptr, is_constant := false
              constant_value := 0 }
    src2 := { id := 2, type := JitType.int64, is_constant := false
              constant_value := 0 }
    target_block := none, else_block := none, is_live := false }

/-- A function holding the single STORE instruction above. -/
def exStoreFunc : JitFunction :=
  { blocks :=
      [{ id := 0
         insts := [exStoreInst]
         num_instructions := 1 }]
    current_block := 0
    num_blocks := 1
    next_ssa_id := 3
    reg_allocator :=
      { virtual_regs := [], num_virtual_regs := 0, num_physical_regs := 32 } }

/-- An x86_64 context with an empty 1 MiB cache. -/
def exX86Ctx : JitContext :=
  { target_arch := JitArch.x86_64, code_off := 0
    code_cache_size := 1024 * 1024, initialized := true }

/-- An x86_64 context whose code cache is exactly full: the cursor stands
at the end of the 16-byte cache, 0 bytes remaining. -/
def exFullCtx : JitContext :=
  { target_arch := JitArch.x86_64, code_off := 16
    code_cache_size := 16, initialized := true }

/-- A context initialized for RISC-V, the architecture recognized by the
arch table but not implemented by any code generator. -/
def exRiscvCtx : JitContext :=
  { target_arch := JitArch.riscv64, code_off := 0
    code_cache_size := 1024 * 1024, initialized := true }

/-- An ADD instruction on value ids 1 and 2 with destination id 3. -/
def exAddInstA : JitInstruction :=
  { opcode := JitOpcode.add
    dest := { id := 3, type := JitType.int64, is_constant := false
              constant_value := 0 }
    src1 := { id := 1, type := JitType.int64, is_constant := false
              constant_value := 0 }
    src2 := { id := 2, type := JitType.int64, is_constant := false
              constant_value := 0 }
    target_block := none, else_block := none, is_live := false }

/-- An ADD instruction on the different value ids 4 and 5 with the
different destination id 6. -/
def exAddInstB : JitInstruction :=
  { opcode := JitOpcode.add
    dest := { id := 6, type := JitType.int64, is_constant := false
              constant_value := 0 }
    src1 := { id := 4, type := JitType.int64, is_constant := false
              constant_value := 0 }
    src2 := { id := 5, type := JitType.int64, is_constant := false
              constant_value := 0 }
    target_block := none, else_block := none, is_live := false }

/-- The function f() = (3 + 4) * 2 built entirely from constants through
the IR-builder calls, starting from a fresh function whose entry block
has id 0. -/
def buildConstChainFunc : JitFunction :=
  let f0 : JitFunction :=
    { blocks := [{ id := 0, insts := [], num_instructions := 0 }]
      current_block := 0
      num_blocks := 1
      next_ssa_id := 1
      reg_allocator :=
        { virtual_regs := [], num_virtual_regs := 0
          num_physical_regs := 16 } }
  let p3 := jit_value_create_constant f0 JitType.int64 3
  let p4 := jit_value_create_constant p3.2 JitType.int64 4
  let psum := jit_insn_add p4.2 p3.1 p4.1
  let p2 := jit_value_create_constant psum.2 JitType.int64 2
  let pprod := jit_insn_mul p2.2 psum.1 p2.1
  jit_insn_return pprod.2 pprod.1

/-- The sequence of ids handed out by jit_block_create: counter state
after n calls, starting from the static initializer 0. -/
def blockCounterAfter : Nat → Nat
  | 0 => 0
  | Nat.succ n => (jit_block_create (blockCounterAfter n)).2

/-- The id returned by call number n (0-based) to jit_block_create. -/
def nthBlockId (n : Nat) : Nat := (jit_block_create (blockCounterAfter n)).1.id

/-! Helper lemmas about the passes and the counters. -/

lemma toInt64_idem (n : Int) : toInt64 (toInt64 n) = toInt64 n := by
  unfold toInt64
  rw [Int.sub_add_cancel, Int.emod_emod_of_dvd _ dvd_rfl]

lemma dceMarkInst_eq (i : JitInstruction) :
    dceMarkInst i = (markLive i, !i.is_live && sideEffect i.opcode) := by
  cases i with
  | mk op d s1 s2 t e l =>
    cases l <;> cases h : sideEffect op <;>
      simp [dceMarkInst, markLive, h]

lemma dceSweepInsts_eq (l : List JitInstruction) :
    dceSweepInsts l =
      (l.map markLive, l.any (fun i => !i.is_live && sideEffect i.opcode)) := by
  induction l with
  | nil => rfl
  | cons i rest ih => simp [dceSweepInsts, dceMarkInst_eq, ih]

lemma dceSweepBlocks_eq (bs : List JitBlock) :
    dceSweepBlocks bs =
      (bs.map (fun b => { b with insts := b.insts.map markLive }),
       bs.any (fun b =>
         b.insts.any (fun i => !i.is_live && sideEffect i.opcode))) := by
  induction bs with
  | nil => rfl
  | cons b rest ih => simp [dceSweepBlocks, dceSweepInsts_eq, ih]

lemma markLive_markLive (i : JitInstruction) :
    markLive (markLive i) = markLive i := by
  simp [markLive, Bool.or_assoc]

lemma eliminate_dead_code_eq (f : JitFunction) :
    eliminate_dead_code f = mapInsts markLive f := by
  simp only [eliminate_dead_code, dceSweep, dceSweepBlocks_eq, mapInsts]
  split
  · simp [List.map_map, Function.comp_def, markLive_markLive]
  · rfl

lemma dceSweep_twice_no_change (f : JitFunction) :
    (dceSweep (dceSweep f).1).2 = false := by
  simp [dceSweep, dceSweepBlocks_eq, List.any_map, Function.comp_def,
    markLive, Bool.not_or, Bool.and_assoc]

lemma allInsts_mapInsts (g : JitInstruction → JitInstruction)
    (f : JitFunction) :
    allInsts (mapInsts g f) = (allInsts f).map g := by
  simp [allInsts, mapInsts, List.flatMap_map, List.map_flatMap]

lemma foldInsts_length (l : List JitInstruction) (ssa : Nat) :
    (foldInsts l ssa).1.length = l.length := by
  induction l generalizing ssa with
  | nil => rfl
  | cons i rest ih => simp [foldInsts, ih]

lemma foldInsts_getElem (l : List JitInstruction) (ssa k : Nat)
    (i : JitInstruction) (h : l[k]? = some i) :
    ∃ t, ((foldInsts l ssa).1)[k]? = some (foldInst t i).1 := by
  induction l generalizing ssa k with
  | nil => simp at h
  | cons a rest ih =>
    cases k with
    | zero =>
      simp only [List.getElem?_cons_zero, Option.some.injEq] at h
      subst h
      exact ⟨ssa, by simp [foldInsts]⟩
    | succ m =>
      simp only [List.getElem?_cons_succ] at h
      obtain ⟨t, ht⟩ := ih (foldInst ssa a).2 m h
      exact ⟨t, by simp [foldInsts, ht]⟩

lemma foldInsts_append (l1 l2 : List JitInstruction) (ssa : Nat) :
    foldInsts (l1 ++ l2) ssa =
      ((foldInsts l1 ssa).1 ++ (foldInsts l2 (foldInsts l1 ssa).2).1,
       (foldInsts l2 (foldInsts l1 ssa).2).2) := by
  induction l1 generalizing ssa with
  | nil => rfl
  | cons a t ih => simp [foldInsts, ih]

lemma foldBlocks_flat (bs : List JitBlock) (ssa : Nat) :
    (foldBlocks bs ssa).1.flatMap JitBlock.insts =
      (foldInsts (bs.flatMap JitBlock.insts) ssa).1 ∧
    (foldBlocks bs ssa).2 = (foldInsts (bs.flatMap JitBlock.insts) ssa).2 := by
  induction bs generalizing ssa with
  | nil => exact ⟨rfl, rfl⟩
  | cons b t ih =>
    refine ⟨?_, ?_⟩
    · simp [foldBlocks, foldInsts_append, (ih (foldInsts b.insts ssa).2).1]
    · simp [foldBlocks, foldInsts_append, (ih (foldInsts b.insts ssa).2).2]

lemma allInsts_constant_folding (f : JitFunction) :
    allInsts (constant_folding f) =
      (foldInsts (allInsts f) f.next_ssa_id).1 := by
  simpa [allInsts, constant_folding] using
    (foldBlocks_flat f.blocks f.next_ssa_id).1

lemma foldInst_pos (ssa : Nat) (i : JitInstruction)
    (h1 : i.src1.is_constant = true) (h2 : i.src2.is_constant = true)
    (h3 : foldableOp i.opcode = true) :
    (foldInst ssa i).1 =
      { i with
          opcode := JitOpcode.mov
          src1 := { id := ssa, type := i.dest.type, is_constant := true
                    constant_value := toInt64 (foldResult i.opcode
                      i.src1.constant_value i.src2.constant_value) }
          src2 := { i.src2 with id := 0 } } := by
  unfold foldInst
  rw [if_pos (by simp [h1, h2, h3])]
  rfl

lemma foldInst_neg (ssa : Nat) (i : JitInstruction)
    (h : (i.src1.is_constant && i.src2.is_constant &&
          foldableOp i.opcode) = false) :
    (foldInst ssa i).1 = i := by
  unfold foldInst
  rw [if_neg (by simp [h])]

lemma foldInst_frame (ssa : Nat) (i : JitInstruction) :
    ((foldInst ssa i).1).dest = i.dest ∧
    ((foldInst ssa i).1).target_block = i.target_block ∧
    ((foldInst ssa i).1).else_block = i.else_block ∧
    ((foldInst ssa i).1).is_live = i.is_live := by
  unfold foldInst
  split <;> simp

lemma codegenInstX86_markLive (i : JitInstruction) :
    codegenInstX86 (markLive i) = codegenInstX86 i := by
  cases i with
  | mk op d s1 s2 t e l => cases op <;> rfl

lemma codegenInstArm_markLive (i : JitInstruction) :
    codegenInstArm (markLive i) = codegenInstArm i := by
  cases i with
  | mk op d s1 s2 t e l => cases op <;> rfl

lemma codegen_x86_64_flat (f : JitFunction) :
    codegen_x86_64 f = x86Prologue ++ (allInsts f).flatMap codegenInstX86 := by
  simp [codegen_x86_64, allInsts, List.flatMap_assoc]

lemma codegen_arm64_flat (f : JitFunction) :
    codegen_arm64 f = armPrologue ++ (allInsts f).flatMap codegenInstArm := by
  simp [codegen_arm64, allInsts, List.flatMap_assoc]

lemma codegen_x86_64_dce (f : JitFunction) :
    codegen_x86_64 (eliminate_dead_code f) = codegen_x86_64 f := by
  rw [codegen_x86_64_flat, codegen_x86_64_flat, eliminate_dead_code_eq,
    allInsts_mapInsts, List.flatMap_map]
  simp [Function.comp_def, codegenInstX86_markLive]

lemma codegen_arm64_dce (f : JitFunction) :
    codegen_arm64 (eliminate_dead_code f) = codegen_arm64 f := by
  rw [codegen_arm64_flat, codegen_arm64_flat, eliminate_dead_code_eq,
    allInsts_mapInsts, List.flatMap_map]
  simp [Function.comp_def, codegenInstArm_markLive]

lemma foldBlocks_struct (bs : List JitBlock) (ssa : Nat) :
    (foldBlocks bs ssa).1.map
        (fun b => (b.id, b.num_instructions, b.insts.length)) =
      bs.map (fun b => (b.id, b.num_instructions, b.insts.length)) := by
  induction bs generalizing ssa with
  | nil => rfl
  | cons b t ih => simp [foldBlocks, foldInsts_length, ih]

lemma reg_allocator_passes (f : JitFunction) :
    (constant_folding (eliminate_dead_code f)).reg_allocator =
      f.reg_allocator := by
  rw [eliminate_dead_code_eq]
  rfl

lemma blockCounterAfter_eq (n : Nat) : blockCounterAfter n = n % U32 := by
  induction n with
  | zero => rfl
  | succ m ih =>
    show (blockCounterAfter m + 1) % U32 = (m + 1) % U32
    rw [ih]
    conv_rhs => rw [Nat.add_mod]
    rw [Nat.mod_eq_of_lt (show (1 : Nat) < U32 by norm_num [U32])]

lemma nthBlockId_eq (n : Nat) : nthBlockId n = n % U32 :=
  blockCounterAfter_eq n

/-! Claim theorems. -/

/-- Claim C1: for every instruction whose opcode is ADD, SUB or MUL and
whose src1 and src2 are both constant, the constant-folding pass rewrites
that instruction in place to MOV of a newly created constant value of the
destination's type holding the 64-bit two's-complement wraparound result
of the operation, and zeroes src2's id; every instruction of another
opcode, or with a non-constant operand, is left unchanged. -/
theorem constant_folding_folds_arith (f : JitFunction) (k : Nat)
    (i : JitInstruction) (h : (allInsts f)[k]? = some i) :
    (i.src1.is_constant = true → i.src2.is_constant = true →
      ((i.opcode = JitOpcode.add →
        ∃ n, (allInsts (constant_folding f))[k]? =
          some { i with
                   opcode := JitOpcode.mov
                   src1 := { id := n, type := i.dest.type, is_constant := true
                             constant_value := toInt64 (i.src1.constant_value +
                               i.src2.constant_value) }
                   src2 := { i.src2 with id := 0 } }) ∧
       (i.opcode = JitOpcode.sub →
        ∃ n, (allInsts (constant_folding f))[k]? =
          some { i with
                   opcode := JitOpcode.mov
                   src1 := { id := n, type := i.dest.type, is_constant := true
                             constant_value := toInt64 (i.src1.constant_value -
                               i.src2.constant_value) }
                   src2 := { i.src2 with id := 0 } }) ∧
       (i.opcode = JitOpcode.mul →
        ∃ n, (allInsts (constant_folding f))[k]? =
          some { i with
                   opcode := JitOpcode.mov
                   src1 := { id := n, type := i.dest.type, is_constant := true
                             constant_value := toInt64 (i.src1.constant_value *
                               i.src2.constant_value) }
                   src2 := { i.src2 with id := 0 } })))
    ∧ ((i.src1.is_constant = false ∨ i.src2.is_constant = false ∨
        (i.opcode ≠ JitOpcode.add ∧ i.opcode ≠ JitOpcode.sub ∧
         i.opcode ≠ JitOpcode.mul)) →
      (allInsts (constant_folding f))[k]? = some i) := by
  obtain ⟨t, ht⟩ := foldInsts_getElem (allInsts f) f.next_ssa_id k i h
  rw [allInsts_constant_folding]
  constructor
  · intro h1 h2
    refine ⟨?_, ?_, ?_⟩ <;> intro hop <;> refine ⟨t, ?_⟩ <;>
      rw [ht, foldInst_pos t i h1 h2 (by simp [foldableOp, hop])] <;>
      simp [foldResult, hop, toInt64_idem]
  · intro hcase
    rw [ht, foldInst_neg]
    rcases hcase with h1 | h2 | ⟨ha, hs, hm⟩
    · simp [h1]
    · simp [h2]
    · have : foldableOp i.opcode = false := by
        simp [foldableOp, ha, hs, hm]
      simp [this]

/-- Claim C1 witness: folding the concrete function holding ADD of the
constants 3 and 4 yields a MOV whose constant operand is 7 and whose
src2 id is zeroed. -/
theorem constant_folding_folds_arith_witness :
    ∃ n, (allInsts (constant_folding exFoldFunc))[0]? =
      some { exFoldInst with
               opcode := JitOpcode.mov
               src1 := { id := n, type := exFoldInst.dest.type
                         is_constant := true
                         constant_value := toInt64
                           (exFoldInst.src1.constant_value +
                            exFoldInst.src2.constant_value) }
               src2 := { exFoldInst.src2 with id := 0 } } :=
  ((constant_folding_folds_arith exFoldFunc 0 exFoldInst rfl).1 rfl rfl).1 rfl

/-- Claim C2 counterexample: in the function whose RETURN (instruction 1,
live after the pass) consumes value id 3 as src1, the ADD (instruction 0)
producing value id 3 as its destination is still not marked live after
dead-code elimination, refuting the claimed fixed-point propagation of
liveness to operand producers. -/
theorem dce_no_liveness_propagation :
    ((allInsts (eliminate_dead_code exAddRetFunc))[1]?.map
      JitInstruction.is_live) = some true
    ∧ ((allInsts (eliminate_dead_code exAddRetFunc))[1]?.map
      (fun r => r.src1.id)) = some 3
    ∧ ((allInsts (eliminate_dead_code exAddRetFunc))[0]?.map
      (fun a => a.dest.id)) = some 3
    ∧ ((allInsts (eliminate_dead_code exAddRetFunc))[0]?.map
      JitInstruction.is_live) = some false :=
  ⟨rfl, rfl, rfl, rfl⟩

/-- Claim C2 (amended): after the dead-code elimination pass runs to its
fixed point, an instruction is marked live exactly when it was already
live or its opcode is STORE, RETURN or CALL; nothing else about any
instruction changes, and no liveness is propagated to instructions whose
destinations are consumed by live instructions. -/
theorem dce_marks_exactly_side_effects (f : JitFunction) (k : Nat)
    (i : JitInstruction) (h : (allInsts f)[k]? = some i) :
    (allInsts (eliminate_dead_code f))[k]? =
      some { i with is_live := i.is_live || sideEffect i.opcode } := by
  rw [eliminate_dead_code_eq, allInsts_mapInsts, List.getElem?_map, h]
  rfl

/-- Claim C2 witness: the single STORE of the concrete store function is
live after the pass. -/
theorem dce_marks_exactly_side_effects_witness :
    ((allInsts (eliminate_dead_code exStoreFunc))[0]?.map
      JitInstruction.is_live) = some true := by
  rw [dce_marks_exactly_side_effects exStoreFunc 0 exStoreInst rfl]
  rfl

/-- Claim C3: compiling into a context whose 16-byte code cache is
exactly full (0 bytes remaining) does not fail: jit_function_compile
returns the code pointer at the very end of the cache and advances the
cursor 9 bytes past the end of the cache region, so all 9 emitted bytes
(prologue plus RETURN epilogue) land outside the mmap region; no
CacheExhausted error exists anywhere on this path. -/
theorem compile_writes_past_cache :
    (jit_function_compile exFullCtx (some exRetFunc)).1 =
      some exFullCtx.code_cache_size
    ∧ (jit_function_compile exFullCtx (some exRetFunc)).2.1.code_off =
      exFullCtx.code_cache_size + 9
    ∧ (codegen_x86_64 (constant_folding
        (eliminate_dead_code exRetFunc))).length = 9 :=
  ⟨rfl, rfl, rfl⟩

/-- Claim C4 counterexample: compiling the store function for RISC-V
fails (returns NULL), yet the function's IR has been modified: the STORE
instruction's liveness flag, false on entry, is true afterwards. -/
theorem compile_fail_mutates_ir :
    (jit_function_compile exRiscvCtx (some exStoreFunc)).1 = none
    ∧ (jit_function_compile exRiscvCtx (some exStoreFunc)).2.2 ≠
      some exStoreFunc
    ∧ ((jit_function_compile exRiscvCtx (some exStoreFunc)).2.2.map
        (fun g => (allInsts g).map JitInstruction.is_live)) = some [true]
    ∧ (allInsts exStoreFunc).map JitInstruction.is_live = [false] := by
  refine ⟨rfl, ?_, rfl, rfl⟩
  decide

/-- Claim C4 (amended): whenever jit_function_compile fails, the context
(and with it the code-cache cursor) is unchanged; the function is
untouched on the null-function and uninitialized-context paths, but on
the unimplemented-target path the failure happens only after the two
optimization passes have already mutated the IR. -/
theorem compile_fail_preserves_cursor (ctx : JitContext)
    (fo : Option JitFunction)
    (h : (jit_function_compile ctx fo).1 = none) :
    (jit_function_compile ctx fo).2.1 = ctx
    ∧ (fo = none → (jit_function_compile ctx fo).2.2 = none)
    ∧ (ctx.initialized = false → (jit_function_compile ctx fo).2.2 = fo)
    ∧ (∀ f, fo = some f → ctx.initialized = true →
        ctx.target_arch = JitArch.riscv64 ∧
        (jit_function_compile ctx fo).2.2 =
          some (constant_folding (eliminate_dead_code f))) := by
  cases fo with
  | none =>
    exact ⟨rfl, fun _ => rfl, fun _ => rfl, fun f hf => by cases hf⟩
  | some f =>
    cases hinit : ctx.initialized with
    | false =>
      refine ⟨?_, ?_, ?_, ?_⟩
      · simp [jit_function_compile, hinit]
      · intro hf
        cases hf
      · intro _
        simp [jit_function_compile, hinit]
      · intro g hg hI
        simp [hinit] at hI
    | true =>
      cases harch : ctx.target_arch with
      | x86_64 =>
        exfalso
        simp [jit_function_compile, hinit, harch] at h
      | arm64 =>
        exfalso
        simp [jit_function_compile, hinit, harch] at h
      | riscv64 =>
        refine ⟨?_, ?_, ?_, ?_⟩
        · simp [jit_function_compile, hinit, harch]
        · intro hf
          cases hf
        · intro hf
          simp [hinit] at hf
        · intro g hg hI
          injection hg with hg'
          subst hg'
          exact ⟨by simp [harch], by simp [jit_function_compile, hinit, harch]⟩

/-- Claim C4 witness: on the concrete RISC-V failure the context is
returned unchanged and the function is exactly the output of DCE followed
by constant folding. -/
theorem compile_fail_preserves_cursor_witness :
    (jit_function_compile exRiscvCtx (some exStoreFunc)).2.1 = exRiscvCtx
    ∧ (jit_function_compile exRiscvCtx (some exStoreFunc)).2.2 =
      some (constant_folding (eliminate_dead_code exStoreFunc)) := by
  have h := compile_fail_preserves_cursor exRiscvCtx (some exStoreFunc) rfl
  exact ⟨h.1, (h.2.2.2 exStoreFunc rfl rfl).2⟩

/-- Claim C5 counterexample: a successful compile of the function whose
ADD has destination value id 3 leaves the function's register-allocator
state exactly as initialized, with an empty virtual-register table: no
destination was ever assigned a physical register, so no round-robin
register-allocation step ran in the pipeline. -/
theorem compile_performs_no_regalloc :
    (jit_function_compile exX86Ctx (some exAddRetFunc)).1 = some 0
    ∧ ((jit_function_compile exX86Ctx (some exAddRetFunc)).2.2.map
        (fun g => g.reg_allocator)) =
      some { virtual_regs := [], num_virtual_regs := 0
             num_physical_regs := 16 }
    ∧ (allInsts exAddRetFunc).map (fun i => i.dest.id) = [3, 0] :=
  ⟨rfl, rfl, rfl⟩

/-- Claim C5 (amended): every successful jit_function_compile call runs
exactly dead-code elimination, then constant folding, then
architecture-specific code generation on the result, returning the old
cursor and advancing it by the emitted byte count; no register-allocation
step runs and the function's register-allocator state is unchanged. -/
theorem compile_pipeline_order (ctx : JitContext) (f : JitFunction)
    (h : (jit_function_compile ctx (some f)).1.isSome = true) :
    (jit_function_compile ctx (some f)).2.2 =
      some (constant_folding (eliminate_dead_code f))
    ∧ ((jit_function_compile ctx (some f)).2.2.map
        (fun g => g.reg_allocator)) = some f.reg_allocator
    ∧ (jit_function_compile ctx (some f)).1 = some ctx.code_off
    ∧ (ctx.target_arch = JitArch.x86_64 →
        (jit_function_compile ctx (some f)).2.1 =
          { ctx with code_off := ctx.code_off +
              (codegen_x86_64 (constant_folding
                (eliminate_dead_code f))).length })
    ∧ (ctx.target_arch = JitArch.arm64 →
        (jit_function_compile ctx (some f)).2.1 =
          { ctx with code_off := ctx.code_off +
              4 * (codegen_arm64 (constant_folding
                (eliminate_dead_code f))).length }) := by
  cases hinit : ctx.initialized with
  | false =>
    exfalso
    simp [jit_function_compile, hinit] at h
  | true =>
    cases harch : ctx.target_arch with
    | riscv64 =>
      exfalso
      simp [jit_function_compile, hinit, harch] at h
    | x86_64 =>
      refine ⟨?_, ?_, ?_, fun _ => ?_, fun hc => absurd hc (by simp [harch])⟩ <;>
        simp [jit_function_compile, hinit, harch, reg_allocator_passes]
    | arm64 =>
      refine ⟨?_, ?_, ?_, fun hc => absurd hc (by simp [harch]), fun _ => ?_⟩ <;>
        simp [jit_function_compile, hinit, harch, reg_allocator_passes]

/-- Claim C5 witness: the concrete successful x86_64 compile returns the
function after exactly DCE and folding, and the pointer at the old
cursor. -/
theorem compile_pipeline_order_witness :
    (jit_function_compile exX86Ctx (some exAddRetFunc)).2.2 =
      some (constant_folding (eliminate_dead_code exAddRetFunc))
    ∧ (jit_function_compile exX86Ctx (some exAddRetFunc)).1 =
      some exX86Ctx.code_off := by
  have h := compile_pipeline_order exX86Ctx exAddRetFunc rfl
  exact ⟨h.1, h.2.2.1⟩

/-- Claim C6 counterexample: two ADD instructions on entirely different
values (destination ids 3 and 6) emit identical byte sequences on both
targets; the x86_64 bytes are always 48 01 c0, whose ModR/M byte c0
names rax for both register fields whatever the operands were, so the
encoding is not parameterized by any assigned registers. -/
theorem codegen_ignores_operands :
    exAddInstA ≠ exAddInstB
    ∧ codegenInstX86 exAddInstA = codegenInstX86 exAddInstB
    ∧ codegenInstX86 exAddInstA = [0x48, 0x01, 0xc0]
    ∧ codegenInstArm exAddInstA = codegenInstArm exAddInstB := by
  refine ⟨by decide, rfl, rfl, rfl⟩

/-- Claim C6 (amended): for every ADD, SUB or MUL instruction the code
generator emits a fixed per-opcode byte template independent of the
instruction's operands (x86_64: 48 01 c0, 48 29 c0, 48 0f af c0; ARM64:
the words 8b000000, cb000000, 9b007c00), so all instructions of the same
opcode produce identical encodings. -/
theorem codegen_fixed_templates (i : JitInstruction) :
    (i.opcode = JitOpcode.add →
      codegenInstX86 i = [0x48, 0x01, 0xc0] ∧
      codegenInstArm i = [0x8b000000])
    ∧ (i.opcode = JitOpcode.sub →
      codegenInstX86 i = [0x48, 0x29, 0xc0] ∧
      codegenInstArm i = [0xcb000000])
    ∧ (i.opcode = JitOpcode.mul →
      codegenInstX86 i = [0x48, 0x0f, 0xaf, 0xc0] ∧
      codegenInstArm i = [0x9b007c00]) := by
  refine ⟨fun h => ?_, fun h => ?_, fun h => ?_⟩ <;>
    simp [codegenInstX86, codegenInstArm, h]

/-- Claim C6 witness: the concrete ADD instruction emits the fixed
templates on both targets. -/
theorem codegen_fixed_templates_witness :
    codegenInstX86 exAddInstA = [0x48, 0x01, 0xc0]
    ∧ codegenInstArm exAddInstA = [0x8b000000] :=
  (codegen_fixed_templates exAddInstA).1 rfl

/-- Claim C7 counterexample: for f() = (3 + 4) * 2 built entirely from
constants, three instructions survive the passes of one compile call and
the second of them is the MUL, not a MOV, so the single surviving
instruction before codegen is not a MOV. -/
theorem constant_chain_not_single_mov :
    (allInsts (constant_folding
      (eliminate_dead_code buildConstChainFunc))).length = 3
    ∧ ((allInsts (constant_folding
        (eliminate_dead_code buildConstChainFunc)))[1]?.map
        JitInstruction.opcode) = some JitOpcode.mul :=
  ⟨rfl, rfl⟩

/-- Claim C7 (amended): for f() = (3 + 4) * 2 built entirely from
constants, one compile call's passes fold exactly one level of the
constant chain: the ADD becomes MOV of the constant 7 while the dependent
MUL (whose src1 is the non-constant ADD destination) and the RETURN
survive unchanged, leaving three instructions before codegen. -/
theorem constant_chain_one_level :
    (allInsts (constant_folding
      (eliminate_dead_code buildConstChainFunc))).map
        (fun i => (i.opcode, i.src1.is_constant, i.src1.constant_value)) =
    [(JitOpcode.mov, true, 7), (JitOpcode.mul, false, 0),
     (JitOpcode.ret, false, 0)] :=
  rfl

/-- Claim C8: neither pass removes, adds or reorders an instruction or a
block: both passes preserve every block's id, instruction count and
stored num_instructions counter; dead-code elimination changes only
liveness flags, in place; constant folding keeps each instruction's
position, destination, branch targets and liveness; and code generation
walks and emits the template of every instruction of every block in
program order, independent of liveness (so also for instructions never
marked live). -/
theorem passes_preserve_structure (f : JitFunction) :
    ((eliminate_dead_code f).blocks.map
        (fun b => (b.id, b.num_instructions, b.insts.length)) =
      f.blocks.map (fun b => (b.id, b.num_instructions, b.insts.length)))
    ∧ ((constant_folding f).blocks.map
        (fun b => (b.id, b.num_instructions, b.insts.length)) =
      f.blocks.map (fun b => (b.id, b.num_instructions, b.insts.length)))
    ∧ (∀ (k : Nat) (i : JitInstruction), (allInsts f)[k]? = some i →
        (allInsts (eliminate_dead_code f))[k]? =
          some { i with is_live := i.is_live || sideEffect i.opcode })
    ∧ (∀ (k : Nat) (i : JitInstruction), (allInsts f)[k]? = some i →
        ∃ j, (allInsts (constant_folding f))[k]? = some j ∧
          j.dest = i.dest ∧ j.target_block = i.target_block ∧
          j.else_block = i.else_block ∧ j.is_live = i.is_live)
    ∧ codegen_x86_64 (eliminate_dead_code f) = codegen_x86_64 f
    ∧ codegen_arm64 (eliminate_dead_code f) = codegen_arm64 f
    ∧ codegen_x86_64 f = x86Prologue ++ (allInsts f).flatMap codegenInstX86
    ∧ codegen_arm64 f = armPrologue ++ (allInsts f).flatMap codegenInstArm := by
  refine ⟨?_, ?_, ?_, ?_, codegen_x86_64_dce f, codegen_arm64_dce f,
    codegen_x86_64_flat f, codegen_arm64_flat f⟩
  · rw [eliminate_dead_code_eq]
    simp [mapInsts, List.map_map, Function.comp_def]
  · exact foldBlocks_struct f.blocks f.next_ssa_id
  · intro k i h
    rw [eliminate_dead_code_eq, allInsts_mapInsts, List.getElem?_map, h]
    rfl
  · intro k i h
    obtain ⟨t, ht⟩ := foldInsts_getElem (allInsts f) f.next_ssa_id k i h
    rw [allInsts_constant_folding]
    exact ⟨(foldInst t i).1, ht, (foldInst_frame t i).1,
      (foldInst_frame t i).2.1, (foldInst_frame t i).2.2.1,
      (foldInst_frame t i).2.2.2⟩

/-- Claim C8 witness: on the concrete add-and-return function, dead-code
elimination leaves the ADD in place (merely unmarked) and the emitted
x86_64 code is unchanged by the pass. -/
theorem passes_preserve_structure_witness :
    ((allInsts (eliminate_dead_code exAddRetFunc))[0]?.map
      (fun i => (i.opcode, i.is_live))) = some (JitOpcode.add, false)
    ∧ codegen_x86_64 (eliminate_dead_code exAddRetFunc) =
      codegen_x86_64 exAddRetFunc := by
  constructor
  · rw [(passes_preserve_structure exAddRetFunc).2.2.1 0
      ((allInsts exAddRetFunc).get ⟨0, by decide⟩) rfl]
    rfl
  · exact (passes_preserve_structure exAddRetFunc).2.2.2.2.1

/-- Claim C9: for every function and every address value of any type,
jit_insn_load returns a fresh non-constant destination value whose type
is PTR regardless of the address operand's type, drawn from the
function's SSA counter which is then advanced. -/
theorem insn_load_dest_ptr (f : JitFunction) (address : JitValue) :
    (jit_insn_load f address).1.type = JitType.ptr
    ∧ (jit_insn_load f address).1.is_constant = false
    ∧ (jit_insn_load f address).1.id = f.next_ssa_id
    ∧ (jit_insn_load f address).2.next_ssa_id = (f.next_ssa_id + 1) % U32 :=
  ⟨rfl, rfl, rfl, rfl⟩

/-- Claim C10 counterexample: jit_block_create draws ids from a uint32_t
counter, so call number 2^32 (0-based) returns id 0 again, which is not
strictly greater than the id 1 returned by the earlier call number 1:
ids are not strictly increasing over all calls in the process. -/
theorem block_id_counter_wraps :
    nthBlockId 4294967296 = 0 ∧ nthBlockId 1 = 1
    ∧ ¬ nthBlockId 1 < nthBlockId 4294967296 := by
  have h1 := nthBlockId_eq 4294967296
  have h2 := nthBlockId_eq 1
  norm_num [U32] at h1 h2
  exact ⟨h1, h2, by rw [h1, h2]; norm_num⟩

/-- Claim C10 (amended): block ids come from a single process-wide 32-bit
counter: among the first 2^32 jit_block_create calls of the process
(including entry blocks allocated by jit_function_create), every call
returns an id strictly greater than every earlier call's id, so block ids
are unique across all functions and contexts until the counter wraps. -/
theorem block_ids_strictly_increasing (m n : Nat) (hmn : m < n)
    (hn : n < U32) :
    nthBlockId m < nthBlockId n := by
  rw [nthBlockId_eq, nthBlockId_eq, Nat.mod_eq_of_lt (lt_trans hmn hn),
    Nat.mod_eq_of_lt hn]
  exact hmn

/-- Claim C10 witness: the first call's id 0 is below the second call's
id 1. -/
theorem block_ids_strictly_increasing_witness : nthBlockId 0 < nthBlockId 1 :=
  block_ids_strictly_increasing 0 1 (by norm_num) (by norm_num [U32])

end JitEngine
